import Mathlib

/-!
# HalfAForm-serv: verification of the authorization / consistency core

Shallow embedding of the HalfAForm server (TypeScript/Express/Prisma) into
Lean 4.  Each definition is translated from a concrete source file of the
repository; the file and symbol are named in its doc comment.  The
repository ships several revisions of some files; the embedding follows the
revision wired together by the latest entry point (src/unnamed/part_001),
namely the TemplateController of src/unnamed/part_002, the FormController of
src/unnamed/part_005, the TemplateHandler of src/unnamed/part_009, and the
named handlers src/handlers/AuthHandler.ts, src/handlers/UserHandler.ts,
src/handlers/FormHandler.ts together with src/prisma/schema.prisma.

External collaborators are modelled through narrow interfaces: the Prisma
store is an explicit `DB` value threaded through each operation, bcrypt is a
hash/compare function parameter, jwt signing is modelled by the payload that
a successful `jwt.verify` would return (`none` standing for an invalid or
expired token), and uuid generation is an explicit `newId` argument.
-/

/-- `AppError` from src/utils/AppError: an HTTP status code plus a message.
Thrown errors that carry no AppError status are modelled with the status the
controller's catch block ends up sending. -/
structure AppError where
  statusCode : Nat
  message : String
deriving DecidableEq, Repr

deriving instance DecidableEq for Except

/-- A stored user row, per `model User` in src/prisma/schema.prisma
(the Salesforce relation, which no claim touches, is omitted). -/
structure User where
  id : String
  email : String
  name : String
  avatar : Option String
  password : String
  role : String
  status : String
deriving DecidableEq, Repr

/-- One question block of a template, per `TemplateBlockSchema` in
src/types/Template.ts: `type` ranges over "short" | "paragraph" |
"multipleChoice", `optionsType` over "checkbox" | "radio" | "dropdown". -/
structure TemplateBlock where
  id : String
  type : String
  question : String
  required : Bool
  description : Option String
  optionsType : Option String
  options : Option (List String)
deriving DecidableEq, Repr

/-- A stored template row, per `model Template` in src/prisma/schema.prisma
and the `Template` interface in src/types/Template.ts.  `blocks` is stored
as JSON text in the database; the embedding keeps it structured, which is
what every code path obtains by `JSON.parse` before using it.  Timestamps
are omitted (no claim mentions them). -/
structure Template where
  id : String
  status : String
  name : String
  image : Option String
  description : String
  blocks : List TemplateBlock
  authorId : String
  admins : List String
  version : Nat
deriving DecidableEq, Repr

/-- The value of one submitted answer.  Zod's
`z.union([z.string(), z.array(z.string())])` (src/types/Form.ts) accepts a
single string or a list of strings; `vother` stands for any other JSON
value, which that union rejects. -/
inductive AnswerVal where
  | vstr (s : String)
  | vlist (xs : List String)
  | vother
deriving DecidableEq, Repr

/-- One answer of a form, per `FormAnswersSchema` in src/types/Form.ts. -/
structure FormAnswer where
  questionId : String
  question : String
  questionType : String
  answer : AnswerVal
deriving DecidableEq, Repr

/-- A stored form row, per `model Form` in src/prisma/schema.prisma
(timestamps omitted; `answers` kept structured as above). -/
structure FormRec where
  id : String
  templateId : String
  userId : String
  answers : List FormAnswer
deriving DecidableEq, Repr

/-- The persistent store: the three Prisma tables the claims touch. -/
structure DB where
  users : List User
  templates : List Template
  forms : List FormRec
deriving DecidableEq, Repr

/-- `prisma.user.findUnique({ where: { id } })`. -/
def findUserById (db : DB) (id : String) : Option User :=
  db.users.find? (fun u => u.id = id)

/-- `prisma.user.findUnique({ where: { email } })`. -/
def findUserByEmail (db : DB) (email : String) : Option User :=
  db.users.find? (fun u => u.email = email)

/-- `prisma.template.findUnique({ where: { id } })`. -/
def findTemplateById (db : DB) (id : String) : Option Template :=
  db.templates.find? (fun t => t.id = id)

/-- `prisma.form.findUnique({ where: { id } })`. -/
def findFormById (db : DB) (id : String) : Option FormRec :=
  db.forms.find? (fun f => f.id = id)

/-! ## Identity and session: src/handlers/AuthHandler.ts -/

/-- The payload `jwt.sign({ userId, userRole, userStatus }, ...)` embeds in a
credential (AuthHandler.generateToken). -/
structure TokenPayload where
  userId : String
  userRole : String
  userStatus : String
deriving DecidableEq, Repr

/-- `AuthHandler.generateToken` (src/handlers/AuthHandler.ts:125-133): the
credential payload is the user's id, role and status at issuance. -/
def generateToken (u : User) : TokenPayload :=
  ⟨u.id, u.role, u.status⟩

/-- `AuthHandler.register` (src/handlers/AuthHandler.ts:16-53): rejects an
existing email, stores the bcrypt hash, creates the user with status
"active", and issues a credential.  `hash` models bcrypt.hash, `newId`
models uuid().  Returns the public user fields plus the token alongside the
new store. -/
def register (db : DB) (hash : String → String) (newId : String)
    (email name password role : String) :
    Except AppError ((User × TokenPayload) × DB) :=
  if (findUserByEmail db email).isSome then
    .error ⟨400, "User already exists"⟩
  else
    let user : User :=
      { id := newId, email := email, name := name, avatar := none,
        password := hash password, role := role, status := "active" }
    .ok ((user, generateToken user), { db with users := db.users ++ [user] })

/-- `AuthHandler.login` (src/handlers/AuthHandler.ts:55-81): looks the user
up by email, refuses non-active users, compares the password with
bcrypt.compare (`compare`), and issues a credential. -/
def login (db : DB) (compare : String → String → Bool)
    (email password : String) : Except AppError (User × TokenPayload) :=
  match findUserByEmail db email with
  | none => .error ⟨401, "Invalid credentials"⟩
  | some u =>
    if u.status ≠ "active" then .error ⟨401, "User is not active"⟩
    else if ¬ compare password u.password then
      .error ⟨401, "Invalid credentials"⟩
    else .ok (u, generateToken u)

/-- `AuthHandler.verifyToken` (src/handlers/AuthHandler.ts:83-123).
`decoded` is what `jwt.verify` yields: `none` when the signature is invalid
or the token expired (jwt.verify throws, wrapped into a 403 AppError by the
catch block), `some p` the embedded payload otherwise.  The handler then
re-fetches the user from storage and fails when the stored role or status
differs from the embedded one. -/
def verifyToken (db : DB) (decoded : Option TokenPayload) :
    Except AppError TokenPayload :=
  match decoded with
  | none => .error ⟨403, "jwt verification failed"⟩
  | some p =>
    match findUserById db p.userId with
    | none => .error ⟨403, "User not found"⟩
    | some u =>
      if u.role ≠ p.userRole ∨ u.status ≠ p.userStatus then
        .error ⟨403, "Token information mismatch, Please login again"⟩
      else .ok ⟨u.id, u.role, u.status⟩

/-- The `req.user` object the auth middleware attaches to a request. -/
structure ReqUser where
  id : String
  role : String
  status : String
deriving DecidableEq, Repr

/-- `AuthController.authMiddleware` (src/controllers/AuthController.ts):
the outer Option models presence of the bearer token in the Authorization
header (`none` = no token), the inner one is `jwt.verify`'s outcome as in
`verifyToken`. -/
def authMiddleware (db : DB) (token : Option (Option TokenPayload)) :
    Except AppError ReqUser :=
  match token with
  | none => .error ⟨401, "No token provided"⟩
  | some decoded => do
    let p ← verifyToken db decoded
    .ok ⟨p.userId, p.userRole, p.userStatus⟩

/-- A protected route per src/unnamed/part_001: the auth middleware runs
first and the handler only runs on a resolved identity. -/
def protectedOp {α : Type} (db : DB) (token : Option (Option TokenPayload))
    (handler : ReqUser → Except AppError α) : Except AppError α := do
  let u ← authMiddleware db token
  handler u

/-- The credentials the system can issue: exactly the payloads returned on
the success paths of `register` and `login` (the only call sites of
`generateToken` in src/handlers/AuthHandler.ts). -/
inductive IssuedPayload : TokenPayload → Prop where
  | ofRegister (db : DB) (hash : String → String) (newId email name pw role : String)
      (res : User × TokenPayload) (db' : DB)
      (h : register db hash newId email name pw role = .ok (res, db')) :
      IssuedPayload res.2
  | ofLogin (db : DB) (compare : String → String → Bool) (email pw : String)
      (u : User) (p : TokenPayload)
      (h : login db compare email pw = .ok (u, p)) :
      IssuedPayload p

/-- Every credential the system issues embeds status "active": register
creates the user with status "active", and login refuses any user whose
status is not "active" before signing. -/
theorem issuedPayload_status_active (p : TokenPayload)
    (h : IssuedPayload p) : p.userStatus = "active" := by
  cases h with
  | ofRegister db hash newId email name pw role res db' h =>
    unfold register at h
    by_cases hex : (findUserByEmail db email).isSome
    · simp [hex] at h
    · simp [hex] at h
      obtain ⟨h1, _⟩ := h
      rw [← h1]
      rfl
  | ofLogin db compare email pw u p h =>
    unfold login at h
    cases hfind : findUserByEmail db email with
    | none => simp [hfind] at h
    | some u0 =>
      simp [hfind] at h
      by_cases hst : u0.status = "active"
      · simp [hst] at h
        by_cases hcmp : compare pw u0.password
        · simp [hcmp] at h
          rw [← h.2, generateToken, hst]
        · simp [hcmp] at h
      · simp [hst] at h

/-! ## Template lifecycle: src/unnamed/part_002 (TemplateController) and
src/unnamed/part_009 (TemplateHandler) -/

/-- `TemplateBlockSchema.parse` (src/types/Template.ts): the enum checks on
`type` and `optionsType`; the remaining fields are structurally typed. -/
def blockSchemaOk (b : TemplateBlock) : Bool :=
  (b.type = "short" || b.type = "paragraph" || b.type = "multipleChoice") &&
    (match b.optionsType with
     | none => true
     | some ot => ot = "checkbox" || ot = "radio" || ot = "dropdown")

/-- `TemplateController.validateUser`, identical in src/unnamed/part_002 and
src/unnamed/part_005 (FormController): requires a non-empty user id, role
"admin" or "regular", and status "active". -/
def validateUser (u : ReqUser) : Except AppError ReqUser :=
  if u.id = "" ∨ (u.role ≠ "admin" ∧ u.role ≠ "regular") ∨ u.status ≠ "active"
  then .error ⟨401, "The user is not authorized to create a form"⟩
  else .ok u

/-- `TemplateController.validatePermissions` (src/unnamed/part_002):
permits the template's author, any listed admin collaborator, or a global
admin role. -/
def validatePermissions (t : Template) (userId role : String) :
    Except AppError Unit :=
  if t.authorId ≠ userId ∧ ¬ t.admins.contains userId ∧ role ≠ "admin" then
    .error ⟨401, "User is not authorized for this action"⟩
  else .ok ()

/-- `TemplateHandler.getTemplate` (src/unnamed/part_009): findUnique, 404
when absent. -/
def getTemplateH (db : DB) (id : String) : Except AppError Template :=
  match findTemplateById db id with
  | none => .error ⟨404, "Template not found"⟩
  | some t => .ok t

/-- `TemplateHandler.createTemplate` (src/unnamed/part_009): builds the row
with version 1 and the given admin connections and inserts it.  `newId`
models uuid(); `status` is the caller's value with the TS default "draft"
when absent. -/
def createTemplateH (db : DB) (newId name description : String)
    (blocks : List TemplateBlock) (userId : String) (admins : List String)
    (status : Option String) (image : Option String) : Template × DB :=
  let t : Template :=
    { id := newId, status := status.getD "draft", name := name,
      image := image, description := description, blocks := blocks,
      authorId := userId, admins := admins, version := 1 }
  (t, { db with templates := db.templates ++ [t] })

/-- `TemplateHandler.updateTemplate` (src/unnamed/part_009): writes the
supplied template data back under the given id, bumping `version` to the
supplied version + 1.  `prisma.template.update` throws when the id does not
exist (no row to update); the controller's catch turns that into a 500. -/
def updateTemplateH (db : DB) (id : String) (td : Template) :
    Except AppError (Template × DB) :=
  match findTemplateById db id with
  | none => .error ⟨500, "Record to update not found"⟩
  | some _ =>
    let newT := { td with version := td.version + 1 }
    .ok (newT,
      { db with templates :=
          db.templates.map (fun t => if t.id = id then newT else t) })

/-- `TemplateHandler.deleteTemplate` (src/unnamed/part_009):
`prisma.template.delete({ where: { id } })`.  In src/prisma/schema.prisma
the `Form.template` relation specifies no `onDelete` action, so Prisma
applies its default `Restrict` referential action for a required relation:
the delete throws a foreign-key constraint error when any Form still
references the template, and no cascade to forms ever happens.  The
controller's catch returns the thrown error as a 500. -/
def deleteTemplateH (db : DB) (id : String) : Except AppError DB :=
  match findTemplateById db id with
  | none => .error ⟨500, "Record to delete does not exist"⟩
  | some _ =>
    if db.forms.any (fun f => f.templateId = id) then
      .error ⟨500, "Foreign key constraint violated"⟩
    else
      .ok { db with templates := db.templates.filter (fun t => t.id ≠ id) }

/-- A partial template update, the `req.body` of PUT /templates/update/:id
as consumed by `TemplateController.updateTemplate` (src/unnamed/part_002):
absent fields (`none`) keep the stored value under the object spread.
`TemplateUpdateSchema = TemplateSchema.partial()` lets a client supply any
of these fields, `version` included. -/
structure TemplatePatch where
  name : Option String
  description : Option String
  status : Option String
  image : Option String
  blocks : Option (List TemplateBlock)
  version : Option Nat
deriving DecidableEq, Repr

/-- The merge `{ ...existingTemplate, ...partialTemplate, blocks: ...,
admins: ... }` in `TemplateController.updateTemplate`
(src/unnamed/part_002): patch fields override stored ones when present,
`blocks` falls back to the stored (JSON-parsed) blocks, and `admins` is
forced back to the stored collaborator ids. -/
def mergeTemplate (existing : Template) (patch : TemplatePatch) : Template :=
  { id := existing.id,
    status := patch.status.getD existing.status,
    name := patch.name.getD existing.name,
    image := match patch.image with
             | some i => some i
             | none => existing.image,
    description := patch.description.getD existing.description,
    blocks := patch.blocks.getD existing.blocks,
    authorId := existing.authorId,
    admins := existing.admins,
    version := patch.version.getD existing.version }

/-- `TemplateController.updateTemplate` (src/unnamed/part_002:106-151):
validate the caller, load the stored template, check author / collaborator
/ admin permission, merge, re-validate the merged blocks
(`TemplateUpdateSchema.parse`), and hand the merged template to
`TemplateHandler.updateTemplate`. -/
def updateTemplateCtrl (db : DB) (u : ReqUser) (id : String)
    (patch : TemplatePatch) : Except AppError (Template × DB) :=
  match validateUser u with
  | .error e => .error e
  | .ok v =>
    match getTemplateH db id with
    | .error e => .error e
    | .ok existing =>
      match validatePermissions existing v.id v.role with
      | .error e => .error e
      | .ok _ =>
        let merged := mergeTemplate existing patch
        if ¬ merged.blocks.all blockSchemaOk then
          .error ⟨400, "Validation error"⟩
        else
          updateTemplateH db id merged

/-- `TemplateController.createTemplate` (src/unnamed/part_002:45-104):
require name and description (JS falsiness on strings = emptiness; an
empty blocks array is truthy), Zod-validate each block, require an
authenticated user with role "admin" or "regular" and status "active",
then create with admins = [caller]. -/
def createTemplateCtrl (db : DB) (u : ReqUser) (newId name description : String)
    (blocks : List TemplateBlock) (status : Option String)
    (image : Option String) : Except AppError (Template × DB) :=
  if name = "" ∨ description = "" then
    .error ⟨400, "Missing required fields"⟩
  else if ¬ blocks.all blockSchemaOk then
    .error ⟨400, "Validation error"⟩
  else if u.id = "" then
    .error ⟨401, "User is not authenticated"⟩
  else if u.role ≠ "admin" ∧ u.role ≠ "regular" then
    .error ⟨401, "User is not authorized"⟩
  else if u.status ≠ "active" then
    .error ⟨401, "User is not active"⟩
  else
    .ok (createTemplateH db newId name description blocks u.id [u.id] status image)

/-- `TemplateController.getTemplate` (src/unnamed/part_002:185-199, same
body in src/controllers/TemplateController.ts:128-142): fetches and returns
the template by id.  The route GET /templates/:id (src/unnamed/part_001)
carries no auth middleware, and the controller consults neither an actor
nor the template's status. -/
def getTemplateCtrl (db : DB) (id : String) : Except AppError Template :=
  getTemplateH db id

/-- `TemplateController.deleteTemplate` (src/unnamed/part_002:153-183):
author or global admin, then active status, then handler delete. -/
def deleteTemplateCtrl (db : DB) (u : ReqUser) (id : String) :
    Except AppError DB :=
  match getTemplateH db id with
  | .error e => .error e
  | .ok record =>
    if record.authorId ≠ u.id ∧ u.role ≠ "admin" then
      .error ⟨401, "User is not authorized for this action"⟩
    else if u.status ≠ "active" then
      .error ⟨401, "User is not active"⟩
    else
      deleteTemplateH db id

/-! ## Form consistency and form operations: src/unnamed/part_005
(FormController) and src/handlers/FormHandler.ts -/

/-- The value check of `FormAnswersSchema` (src/types/Form.ts): `answer`
must be a single string or a list of strings. -/
def answerShapeOk : AnswerVal → Bool
  | .vstr _ => true
  | .vlist _ => true
  | .vother => false

/-- `FormAnswersSchema.safeParse` on one answer (src/types/Form.ts): the
enum check on `questionType` plus the union check on `answer`; the other
fields are structurally typed. -/
def formAnswerSchemaOk (a : FormAnswer) : Bool :=
  (a.questionType = "short" || a.questionType = "paragraph" ||
     a.questionType = "multipleChoice") && answerShapeOk a.answer

/-- `FormController.validateAnswers` (src/unnamed/part_005:39-45): every
answer must pass `FormAnswersSchema`, else a 400. -/
def validateAnswers (answers : List FormAnswer) : Except AppError Unit :=
  if answers.all formAnswerSchemaOk then .ok ()
  else .error ⟨400, "Invalid form answers"⟩

/-- `FormController.checkTemplate` (src/unnamed/part_005:48-55): loads the
template and, when the `published` flag is set (the default, used by
createForm), rejects any template whose status is not "published" with the
distinct 400 message. -/
def checkTemplate (db : DB) (templateId : String) (published : Bool) :
    Except AppError Template :=
  match getTemplateH db templateId with
  | .error e => .error e
  | .ok t =>
    if t.status ≠ "published" ∧ published then
      .error ⟨400, "The template is not published"⟩
    else .ok t

/-- The message of the missing-required-answer failure in
`FormController.matchTemplateBlocks` (src/unnamed/part_005:69-73). -/
def missingRequiredMsg (b : TemplateBlock) : String :=
  "Required question \"" ++ b.question ++ "\" is not answered"

/-- `FormController.matchTemplateBlocks` (src/unnamed/part_005:58-86): first
loop throws on the first required block with no answer of matching
questionId; second loop throws on the first answer whose questionId matches
no block. -/
def matchTemplateBlocks (templateBlocks : List TemplateBlock)
    (formAnswers : List FormAnswer) : Except AppError Unit :=
  match templateBlocks.find? (fun b =>
      b.required && (formAnswers.find? (fun a => a.questionId = b.id)).isNone) with
  | some b => .error ⟨400, missingRequiredMsg b⟩
  | none =>
    match formAnswers.find? (fun a =>
        (templateBlocks.find? (fun b => b.id = a.questionId)).isNone) with
    | some _ => .error ⟨400, "The answer does not match the template block"⟩
    | none => .ok ()

/-- `FormHandler.getForm` (src/handlers/FormHandler.ts): findUnique, 404
when absent. -/
def getFormH (db : DB) (formId : String) : Except AppError FormRec :=
  match findFormById db formId with
  | none => .error ⟨404, "Form not found"⟩
  | some f => .ok f

/-- `FormHandler.createForm` (src/handlers/FormHandler.ts): inserts the form
with a fresh uuid (`newId`) and timestamps. -/
def createFormH (db : DB) (newId : String) (formData : FormRec) :
    FormRec × DB :=
  let form := { formData with id := newId }
  (form, { db with forms := db.forms ++ [form] })

/-- `FormHandler.deleteForm` (src/handlers/FormHandler.ts, revision used by
src/unnamed/part_005): `prisma.form.delete({ where: { id } })`. -/
def deleteFormH (db : DB) (formId : String) : DB :=
  { db with forms := db.forms.filter (fun f => f.id ≠ formId) }

/-- The request body of POST /forms/new as consumed by
`FormController.createForm`: a template reference plus the answers (the
controller overwrites `userId`, and the handler assigns the id). -/
structure FormBody where
  templateId : String
  answers : List FormAnswer
deriving DecidableEq, Repr

/-- `FormController.createForm` (src/unnamed/part_005:101-149): validate
the caller, stamp their id on the body, validate the answers, parse the
whole form, require the template to exist and be published, match the
answers against the template's blocks, then persist. -/
def createForm (db : DB) (u : ReqUser) (newId : String) (body : FormBody) :
    Except AppError (FormRec × DB) :=
  match validateUser u with
  | .error e => .error e
  | .ok v =>
    let formData : FormRec :=
      { id := "", templateId := body.templateId, userId := v.id,
        answers := body.answers }
    match validateAnswers formData.answers with
    | .error e => .error e
    | .ok _ =>
      match checkTemplate db formData.templateId true with
      | .error e => .error e
      | .ok t =>
        match matchTemplateBlocks t.blocks formData.answers with
        | .error e => .error e
        | .ok _ => .ok (createFormH db newId formData)

/-- `FormController.getForm` (src/unnamed/part_005:195-224): validate the
caller, load the form, and permit only the form's submitter or a global
admin role. -/
def getForm (db : DB) (u : ReqUser) (formId : String) :
    Except AppError FormRec :=
  match validateUser u with
  | .error e => .error e
  | .ok v =>
    match getFormH db formId with
    | .error e => .error e
    | .ok form =>
      if form.userId ≠ v.id ∧ v.role ≠ "admin" then
        .error ⟨401, "The user is not authorized to fetch this form"⟩
      else .ok form

/-- `FormController.deleteForm` (src/unnamed/part_005:227-267): validate the
caller, load the form and its owning template, and permit the form's
submitter, the template's author, or a global admin role. -/
def deleteForm (db : DB) (u : ReqUser) (formId : String) :
    Except AppError (FormRec × DB) :=
  match validateUser u with
  | .error e => .error e
  | .ok v =>
    match getFormH db formId with
    | .error e => .error e
    | .ok form =>
      match getTemplateH db form.templateId with
      | .error e => .error e
      | .ok t =>
        if form.userId ≠ v.id ∧ t.authorId ≠ v.id ∧ v.role ≠ "admin" then
          .error ⟨401, "The user is not authorized to delete this form"⟩
        else .ok (form, deleteFormH db formId)

/-! ## User-facing result shapes: src/handlers/UserHandler.ts and
src/handlers/AuthHandler.ts

The claims about these operations are about which fields of the stored
user row the response object carries, so each operation is embedded at the
level of the keys of the returned object.  A stored user row has exactly
the keys of `model User` in src/prisma/schema.prisma (relation fields are
not columns and are only present when explicitly included). -/

/-- The column keys of a stored user row (src/prisma/schema.prisma). -/
def userRowKeys : List String :=
  ["id", "email", "name", "avatar", "password", "role", "status"]

/-- The JS rest-destructuring `const { password: _p, role: _r, ...rest } =
user` in `UserHandler.getUser` (src/handlers/UserHandler.ts:11-36): the
result keeps every key but `password` and `role`; the Prisma `include`
adds the `authored` relation key. -/
def getUserResultKeys : List String :=
  (userRowKeys.filter (fun k => k ≠ "password" && k ≠ "role")) ++ ["authored"]

/-- `UserHandler.updateUser` (src/handlers/UserHandler.ts): strips only
`password` from the updated row. -/
def updateUserResultKeys : List String :=
  userRowKeys.filter (fun k => k ≠ "password")

/-- `UserHandler.deleteUser` (src/handlers/UserHandler.ts): strips only
`password` from the deleted row. -/
def deleteUserResultKeys : List String :=
  userRowKeys.filter (fun k => k ≠ "password")

/-- `UserHandler.getAllUsers` (src/handlers/UserHandler.ts:62-66): maps the
password-stripping destructure over every row; these are the keys of each
returned element. -/
def getAllUsersElementKeys : List String :=
  userRowKeys.filter (fun k => k ≠ "password")

/-- `UserHandler.findUsers` (src/handlers/UserHandler.ts): the Prisma
`select` clause names exactly id, name and email. -/
def findUsersElementKeys : List String :=
  ["id", "name", "email"]

/-- The `user` object literal returned by `AuthHandler.register`
(src/handlers/AuthHandler.ts:42-53) and `AuthHandler.login`
(src/handlers/AuthHandler.ts:70-81): exactly these five keys. -/
def authUserResultKeys : List String :=
  ["id", "email", "name", "role", "status"]

/-! ## Claim theorems -/

/-- C3: for every credential issued for a user, verification re-fetches the
user's current role and status from storage and fails with the stale-
credential error whenever either differs from the values embedded at
issuance, even though the signature is valid and unexpired (`some p`);
verification succeeds exactly when both still match. -/
theorem verifyToken_stale_iff (db : DB) (p : TokenPayload) (u : User)
    (hu : findUserById db p.userId = some u) :
    (verifyToken db (some p) = .ok ⟨u.id, u.role, u.status⟩ ↔
       (u.role = p.userRole ∧ u.status = p.userStatus)) ∧
    ((u.role ≠ p.userRole ∨ u.status ≠ p.userStatus) →
       verifyToken db (some p) =
         .error ⟨403, "Token information mismatch, Please login again"⟩) := by
  unfold verifyToken
  simp only [hu]
  by_cases hrole : u.role = p.userRole
  · by_cases hstat : u.status = p.userStatus
    · simp [hrole, hstat]
    · simp [hrole, hstat]
  · simp [hrole]

/-- Concrete user fixture for the C3 witness. -/
def userFx3 : User :=
  { id := "u1", email := "a@b.c", name := "Ann", avatar := none,
    password := "hpw", role := "regular", status := "active" }

/-- Store fixture for the C3 witness. -/
def dbFx3 : DB := ⟨[userFx3], [], []⟩

/-- A payload issued while the user's role was "admin": stale once the
stored role is "regular". -/
def staleFx3 : TokenPayload := ⟨"u1", "admin", "active"⟩

/-- Witness for C3: on a concrete store, a payload embedding an out-of-date
role fails verification with the stale-credential error. -/
theorem verifyToken_stale_iff_witness :
    verifyToken dbFx3 (some staleFx3) =
      .error ⟨403, "Token information mismatch, Please login again"⟩ :=
  (verifyToken_stale_iff dbFx3 staleFx3 userFx3 (by decide)).2
    (by left; decide)

/-- C2: a user whose stored status is "suspended" is denied on every
protected operation, regardless of role.  Every protected route of
src/unnamed/part_001 runs `authMiddleware` before its handler
(`protectedOp`), the system only ever issues credentials embedding status
"active" (`issuedPayload_status_active`), and `verifyToken` cross-checks
the embedded status against the freshly loaded one, so the middleware
rejects with a 403 before any handler runs. -/
theorem suspended_user_denied {α : Type} (db : DB) (u : User)
    (p : TokenPayload) (handler : ReqUser → Except AppError α)
    (hsusp : u.status = "suspended")
    (hiss : IssuedPayload p)
    (hlook : findUserById db p.userId = some u) :
    protectedOp db (some (some p)) handler =
      .error ⟨403, "Token information mismatch, Please login again"⟩ := by
  have hact : p.userStatus = "active" := issuedPayload_status_active p hiss
  have hne : u.status ≠ p.userStatus := by
    rw [hsusp, hact]; decide
  unfold protectedOp authMiddleware verifyToken
  simp only [hlook]
  simp only [hne, ne_eq, not_false_eq_true, or_true, if_true]
  rfl

/-- bcrypt.compare stand-in for the C2 witness. -/
def cmpFx2 : String → String → Bool := fun _ _ => true

/-- The C2 witness user while still active (and with role "admin", to
exercise "regardless of role"). -/
def userFx2a : User :=
  { id := "u2", email := "s@b.c", name := "Sam", avatar := none,
    password := "hpw", role := "admin", status := "active" }

/-- The same user after suspension. -/
def userFx2s : User := { userFx2a with status := "suspended" }

/-- Store at credential-issuance time. -/
def dbFx2a : DB := ⟨[userFx2a], [], []⟩

/-- Store at request time: the user is suspended. -/
def dbFx2s : DB := ⟨[userFx2s], [], []⟩

/-- The credential login issues for the still-active user. -/
def payloadFx2 : TokenPayload := ⟨"u2", "admin", "active"⟩

/-- Witness for C2: a credential issued by a concrete successful login is
rejected with 403 once the user is suspended, for an arbitrary handler. -/
theorem suspended_user_denied_witness :
    protectedOp dbFx2s (some (some payloadFx2))
      (fun _ => (.ok () : Except AppError Unit)) =
      .error ⟨403, "Token information mismatch, Please login again"⟩ :=
  suspended_user_denied dbFx2s userFx2s payloadFx2 _
    (by decide)
    (IssuedPayload.ofLogin dbFx2a cmpFx2 "s@b.c" "pw" userFx2a payloadFx2
      (by rfl))
    (by decide)

/-- A draft template fixture for C1: authored by "alice", no collaborators. -/
def draftFx1 : Template :=
  { id := "t1", status := "draft", name := "Survey", image := none,
    description := "d", blocks := [], authorId := "alice", admins := [],
    version := 1 }

/-- Store fixture for C1. -/
def dbFx1 : DB := ⟨[], [draftFx1], []⟩

/-- The unrelated regular actor of the C1 counterexample. -/
def eveFx1 : ReqUser := ⟨"eve", "regular", "active"⟩

/-- C1 counterexample: the read-single-template operation returns a
non-published template although the requesting actor is neither its author,
nor a collaborator, nor a global admin — the route carries no auth
middleware and the controller consults no actor at all, so the result is
the same for every actor.  This contradicts the claim that a non-published
template is only readable by author / collaborator / global admin. -/
theorem getTemplate_draft_open_counterexample :
    getTemplateCtrl dbFx1 "t1" = .ok draftFx1 ∧
    draftFx1.status ≠ "published" ∧
    draftFx1.authorId ≠ eveFx1.id ∧
    draftFx1.admins.contains eveFx1.id = false ∧
    eveFx1.role ≠ "admin" := by
  refine ⟨rfl, by decide, by decide, by decide, by decide⟩

/-- C1 amended: the read-single-template operation permits unconditionally
for every template and every actor, whatever the template's status — it
answers 404 only when the id resolves to no template. -/
theorem getTemplate_unconditional (db : DB) (id : String) :
    (∀ t, findTemplateById db id = some t → getTemplateCtrl db id = .ok t) ∧
    (findTemplateById db id = none →
       getTemplateCtrl db id = .error ⟨404, "Template not found"⟩) := by
  constructor
  · intro t ht
    unfold getTemplateCtrl getTemplateH
    rw [ht]
  · intro hn
    unfold getTemplateCtrl getTemplateH
    rw [hn]

/-- Witness for the amended C1 theorem at the concrete draft fixture. -/
theorem getTemplate_unconditional_witness :
    getTemplateCtrl dbFx1 "t1" = .ok draftFx1 :=
  (getTemplate_unconditional dbFx1 "t1").1 draftFx1 (by decide)

/-- C10: no user-returning operation exposes the stored password hash —
getUser, getAllUsers, findUsers, updateUser, deleteUser, register and login
all return objects without a "password" key — and the public single-user
fetch (getUser) also drops the "role" key. -/
theorem user_responses_hide_password :
    ("password" ∉ getUserResultKeys ∧ "role" ∉ getUserResultKeys) ∧
    "password" ∉ getAllUsersElementKeys ∧
    "password" ∉ findUsersElementKeys ∧
    "password" ∉ updateUserResultKeys ∧
    "password" ∉ deleteUserResultKeys ∧
    "password" ∉ authUserResultKeys := by
  decide

/-- C5 amended part: for a caller who passes user validation and whose
answers pass the per-answer schema, form creation against a stored template
whose status is not "published" fails with the distinct 400
"The template is not published" error (and the store is only ever returned
on the ok path, so nothing is persisted). -/
theorem createForm_unpublished_blocked (db : DB) (u : ReqUser)
    (newId : String) (body : FormBody) (t : Template)
    (hv : validateUser u = .ok u)
    (ha : validateAnswers body.answers = .ok ())
    (ht : findTemplateById db body.templateId = some t)
    (hs : t.status ≠ "published") :
    createForm db u newId body =
      .error ⟨400, "The template is not published"⟩ := by
  have hct : checkTemplate db body.templateId true =
      .error ⟨400, "The template is not published"⟩ := by
    unfold checkTemplate getTemplateH
    simp only [ht]
    simp [hs]
  unfold createForm
  simp only [hv, ha, hct]

/-- The suspended actor of the C5 counterexample. -/
def sueFx5 : ReqUser := ⟨"sue", "regular", "suspended"⟩

/-- The request body of the C5 counterexample. -/
def bodyFx5 : FormBody := ⟨"t1", []⟩

/-- C5 counterexample: against the stored draft (non-published) template,
form creation by a suspended actor fails with the generic 401 authorization
error, not with the distinct 400 "The template is not published" condition —
so "for every actor" the failure is TemplateNotPublished is false: the user
check runs first. -/
theorem createForm_unpublished_counterexample :
    createForm dbFx1 sueFx5 "f1" bodyFx5 =
      .error ⟨401, "The user is not authorized to create a form"⟩ ∧
    (AppError.mk 401 "The user is not authorized to create a form" ≠
      AppError.mk 400 "The template is not published") ∧
    draftFx1.status ≠ "published" ∧
    findTemplateById dbFx1 bodyFx5.templateId = some draftFx1 := by
  refine ⟨rfl, by decide, by decide, by decide⟩

/-- Witness for the amended C5 theorem: an active regular actor with an
empty (schema-valid) answer list is refused with the distinct
not-published error on the concrete draft template. -/
theorem createForm_unpublished_blocked_witness :
    createForm dbFx1 eveFx1 "f1" bodyFx5 =
      .error ⟨400, "The template is not published"⟩ :=
  createForm_unpublished_blocked dbFx1 eveFx1 "f1" bodyFx5 draftFx1
    (by decide) (by decide) (by decide) (by decide)

/-- The multiple-choice block of the C7 counterexample, with option list
["red", "blue"]. -/
def blockFx7 : TemplateBlock :=
  { id := "q1", type := "multipleChoice", question := "pick one",
    required := true, description := none, optionsType := some "radio",
    options := some ["red", "blue"] }

/-- A published template holding only that block. -/
def tmplFx7 : Template :=
  { id := "t7", status := "published", name := "Poll", image := none,
    description := "d", blocks := [blockFx7], authorId := "alice",
    admins := [], version := 1 }

/-- Store fixture for C7. -/
def dbFx7 : DB := ⟨[], [tmplFx7], []⟩

/-- The offending answer: a single string, not drawn from the block's
option list, against a multiple-choice block. -/
def ansFx7 : FormAnswer :=
  ⟨"q1", "pick one", "multipleChoice", .vstr "hello"⟩

/-- The submission body of the C7 counterexample. -/
def bodyFx7 : FormBody := ⟨"t7", [ansFx7]⟩

/-- The active regular submitter of the C7 counterexample. -/
def bobFx7 : ReqUser := ⟨"bob", "regular", "active"⟩

/-- The form the C7 counterexample ends up persisting. -/
def formFx7 : FormRec := ⟨"f7", "t7", "bob", [ansFx7]⟩

/-- C7 counterexample: an answer whose value is a single string that is not
a member of the matching multiple-choice block's option list passes every
check and the form is persisted — no ValidationError occurs, contradicting
the claim that the value of a multiple-choice answer must be a list of
strings drawn from the block's options. -/
theorem answer_shape_not_checked_counterexample :
    createForm dbFx7 bobFx7 "f7" bodyFx7 =
      .ok (formFx7, ⟨[], [tmplFx7], [formFx7]⟩) ∧
    blockFx7.type = "multipleChoice" ∧
    ansFx7.questionId = blockFx7.id ∧
    ansFx7.answer = .vstr "hello" ∧
    (blockFx7.options.getD []).contains "hello" = false := by
  refine ⟨by decide, rfl, rfl, rfl, by decide⟩

/-- C7 amended: the only value-shape rule the code enforces is
`FormAnswersSchema`'s union — each answer's value must be a single string
or a list of strings, with no reference to the matched block's type or
option list; a submission violating the union (or the questionType enum)
fails with the 400 "Invalid form answers" error, and one satisfying it
passes the answers check whatever the blocks say. -/
theorem validateAnswers_shape_only (answers : List FormAnswer) :
    (validateAnswers answers = .ok () ↔
       ∀ a ∈ answers, formAnswerSchemaOk a = true) ∧
    ((∃ a ∈ answers, ¬ formAnswerSchemaOk a = true) →
       validateAnswers answers = .error ⟨400, "Invalid form answers"⟩) := by
  unfold validateAnswers
  by_cases h : answers.all formAnswerSchemaOk
  · rw [List.all_eq_true] at h
    simp [h]
  · rw [if_neg h]
    constructor
    · constructor
      · intro hc
        simp at hc
      · intro hall
        exact absurd (List.all_eq_true.mpr hall) h
    · intro _
      rfl

/-- Witness for the amended C7 theorem: a list holding one out-of-union
value is rejected with the 400 "Invalid form answers" error. -/
theorem validateAnswers_shape_only_witness :
    validateAnswers [⟨"q1", "q", "short", .vother⟩] =
      .error ⟨400, "Invalid form answers"⟩ :=
  (validateAnswers_shape_only [⟨"q1", "q", "short", .vother⟩]).2
    ⟨⟨"q1", "q", "short", .vother⟩, by simp, by decide⟩

/-- C8 amended: given a caller who passes user validation, a stored form
and its owning template, the read-single-form operation permits exactly the
form's submitter or a global admin role (the owning template's author and
collaborators are NOT permitted), and the delete-form operation permits
exactly the submitter, the owning template's author, or a global admin
role (admin collaborators are NOT permitted). -/
theorem form_read_delete_permissions (db : DB) (u : ReqUser)
    (formId : String) (f : FormRec) (t : Template)
    (hv : validateUser u = .ok u)
    (hf : findFormById db formId = some f)
    (ht : findTemplateById db f.templateId = some t) :
    (getForm db u formId = .ok f ↔
       (f.userId = u.id ∨ u.role = "admin")) ∧
    (deleteForm db u formId = .ok (f, deleteFormH db formId) ↔
       (f.userId = u.id ∨ t.authorId = u.id ∨ u.role = "admin")) := by
  constructor
  · unfold getForm getFormH
    simp only [hv, hf]
    by_cases h1 : f.userId = u.id
    · simp [h1]
    · by_cases h2 : u.role = "admin"
      · simp [h1, h2]
      · simp [h1, h2]
  · unfold deleteForm getFormH getTemplateH
    simp only [hv, hf, ht]
    by_cases h1 : f.userId = u.id
    · simp [h1]
    · by_cases h2 : t.authorId = u.id
      · simp [h1, h2]
      · by_cases h3 : u.role = "admin"
        · simp [h1, h2, h3]
        · simp [h1, h2, h3]

/-- The template of the C8 counterexample: authored by "alice" with admin
collaborator "carol". -/
def tmplFx8 : Template :=
  { id := "t8", status := "published", name := "Q", image := none,
    description := "d", blocks := [], authorId := "alice",
    admins := ["carol"], version := 1 }

/-- A form submitted against it by "bob". -/
def formFx8 : FormRec := ⟨"f8", "t8", "bob", []⟩

/-- Store fixture for C8. -/
def dbFx8 : DB := ⟨[], [tmplFx8], [formFx8]⟩

/-- The template's author as an active regular caller. -/
def aliceFx8 : ReqUser := ⟨"alice", "regular", "active"⟩

/-- The template's admin collaborator as an active regular caller. -/
def carolFx8 : ReqUser := ⟨"carol", "regular", "active"⟩

/-- C8 counterexample: the owning template's author is denied the
read-single-form operation on a submission against their template, and the
template's admin collaborator is denied the delete-form operation — both
with the 401 authorization error — although the claim says both
operations permit the author and the admin collaborators. -/
theorem form_owner_rights_counterexample :
    getForm dbFx8 aliceFx8 "f8" =
      .error ⟨401, "The user is not authorized to fetch this form"⟩ ∧
    deleteForm dbFx8 carolFx8 "f8" =
      .error ⟨401, "The user is not authorized to delete this form"⟩ ∧
    tmplFx8.authorId = aliceFx8.id ∧
    tmplFx8.admins.contains carolFx8.id = true ∧
    formFx8.templateId = tmplFx8.id ∧
    formFx8.userId ≠ aliceFx8.id ∧ formFx8.userId ≠ carolFx8.id := by
  refine ⟨by decide, by decide, rfl, by decide, rfl, by decide, by decide⟩

/-- Witness for the amended C8 theorem: on the concrete store the author
may delete the form (right-hand side holds via the author disjunct). -/
theorem form_read_delete_permissions_witness :
    deleteForm dbFx8 aliceFx8 "f8" = .ok (formFx8, deleteFormH dbFx8 "f8") :=
  (form_read_delete_permissions dbFx8 aliceFx8 "f8" formFx8 tmplFx8
    (by decide) (by decide) (by decide)).2.mpr (Or.inr (Or.inl rfl))

/-- C9 amended: for an authorized active caller on a stored template,
delete never cascades: when some form still references the template the
delete fails with the foreign-key error (Prisma's default Restrict action,
since `Form.template` in src/prisma/schema.prisma declares no onDelete)
and the store is only returned unchanged on the ok path; when no form
references it, only the template row is removed and the forms table is
untouched. -/
theorem deleteTemplate_no_cascade (db : DB) (u : ReqUser) (id : String)
    (t : Template)
    (ht : findTemplateById db id = some t)
    (hauth : t.authorId = u.id ∨ u.role = "admin")
    (hact : u.status = "active") :
    ((∃ f ∈ db.forms, f.templateId = id) →
       deleteTemplateCtrl db u id =
         .error ⟨500, "Foreign key constraint violated"⟩) ∧
    ((∀ f ∈ db.forms, f.templateId ≠ id) →
       deleteTemplateCtrl db u id =
         .ok { db with templates := db.templates.filter (fun x => x.id ≠ id) }) := by
  have hperm : ¬ (t.authorId ≠ u.id ∧ u.role ≠ "admin") := by
    rcases hauth with h | h
    · intro hc; exact hc.1 h
    · intro hc; exact hc.2 h
  constructor
  · intro ⟨f, hfmem, hfid⟩
    have hany : db.forms.any (fun f => f.templateId = id) = true := by
      rw [List.any_eq_true]
      exact ⟨f, hfmem, by simp [hfid]⟩
    unfold deleteTemplateCtrl getTemplateH deleteTemplateH
    simp only [ht]
    rw [if_neg hperm, if_neg (by simp [hact])]
    simp only [ht, hany, if_true]
  · intro hnone
    have hany : db.forms.any (fun f => f.templateId = id) = false := by
      rw [Bool.eq_false_iff, Ne, List.any_eq_true]
      rintro ⟨f, hfmem, hfid⟩
      exact hnone f hfmem (by simpa using hfid)
    unfold deleteTemplateCtrl getTemplateH deleteTemplateH
    simp only [ht]
    rw [if_neg hperm, if_neg (by simp [hact])]
    simp only [ht, hany, if_false]
    rfl

/-- The template of the C9 counterexample, authored by "alice". -/
def tmplFx9 : Template :=
  { id := "t9", status := "published", name := "Q", image := none,
    description := "d", blocks := [], authorId := "alice", admins := [],
    version := 1 }

/-- A form still referencing that template. -/
def formFx9 : FormRec := ⟨"f9", "t9", "bob", []⟩

/-- Store fixture for C9. -/
def dbFx9 : DB := ⟨[], [tmplFx9], [formFx9]⟩

/-- The author as an active regular caller. -/
def aliceFx9 : ReqUser := ⟨"alice", "regular", "active"⟩

/-- C9 counterexample: with a form still referencing the template, the
author's delete fails with the foreign-key error and removes nothing — the
claimed cascading, atomic removal of the template together with its forms
never happens (success is impossible while a referencing form exists). -/
theorem deleteTemplate_cascade_counterexample :
    deleteTemplateCtrl dbFx9 aliceFx9 "t9" =
      .error ⟨500, "Foreign key constraint violated"⟩ ∧
    formFx9.templateId = tmplFx9.id ∧
    tmplFx9.authorId = aliceFx9.id ∧
    (∀ db', deleteTemplateCtrl dbFx9 aliceFx9 "t9" ≠ .ok db') := by
  refine ⟨by decide, rfl, rfl, ?_⟩
  intro db' hc
  rw [show deleteTemplateCtrl dbFx9 aliceFx9 "t9" =
      .error ⟨500, "Foreign key constraint violated"⟩ from by decide] at hc
  exact Except.noConfusion hc

/-- Witness for the amended C9 theorem: on the concrete store the delete
fails with the foreign-key error via the first conjunct. -/
theorem deleteTemplate_no_cascade_witness :
    deleteTemplateCtrl dbFx9 aliceFx9 "t9" =
      .error ⟨500, "Foreign key constraint violated"⟩ :=
  (deleteTemplate_no_cascade dbFx9 aliceFx9 "t9" tmplFx9
    (by decide) (Or.inl rfl) rfl).1 ⟨formFx9, by simp [dbFx9], rfl⟩

/-- C4 amended: a template is created with version 1, and a successful
update stores version v+1 where v is the version field of the merged
template — the client-supplied version when the PUT body carries one
(TemplateUpdateSchema admits it and the object spread lets it override the
freshly read value), and the freshly read stored version otherwise.  Only
in the latter case is the new version read-version + 1; a failed update
returns an error and no store. -/
theorem template_version_rule (db : DB) (u : ReqUser) (id : String)
    (patch : TemplatePatch) (existing t' : Template) (db' : DB)
    (hex : findTemplateById db id = some existing)
    (hok : updateTemplateCtrl db u id patch = .ok (t', db')) :
    t'.version = (patch.version.getD existing.version) + 1 ∧
    (patch.version = none → t'.version = existing.version + 1) ∧
    (∀ dbx nId nm ds bl uid adm st im,
       (createTemplateH dbx nId nm ds bl uid adm st im).1.version = 1) := by
  unfold updateTemplateCtrl getTemplateH at hok
  cases hvu : validateUser u with
  | error e =>
    rw [hvu] at hok
    exact Except.noConfusion hok
  | ok v =>
    simp only [hvu, hex] at hok
    cases hvp : validatePermissions existing v.id v.role with
    | error e =>
      rw [hvp] at hok
      exact Except.noConfusion hok
    | ok unitv =>
      simp only [hvp] at hok
      by_cases hbl : (mergeTemplate existing patch).blocks.all blockSchemaOk
      · rw [if_neg (by simp [hbl])] at hok
        unfold updateTemplateH at hok
        simp only [hex] at hok
        have ht2 : t' = { mergeTemplate existing patch with
            version := (mergeTemplate existing patch).version + 1 } := by
          cases hok
          rfl
        refine ⟨?_, ?_, fun dbx nId nm ds bl uid adm st im => rfl⟩
        · rw [ht2]
          simp [mergeTemplate]
        · intro hnone
          rw [ht2]
          simp [mergeTemplate, hnone]
      · rw [if_pos (by simp [hbl])] at hok
        exact Except.noConfusion hok

/-- The stored template of the C4 counterexample, at version 10. -/
def tmplFx4 : Template :=
  { id := "t4", status := "draft", name := "T", image := none,
    description := "d", blocks := [], authorId := "alice", admins := [],
    version := 10 }

/-- Store fixture for C4. -/
def dbFx4 : DB := ⟨[], [tmplFx4], []⟩

/-- The author as an active regular caller. -/
def aliceFx4 : ReqUser := ⟨"alice", "regular", "active"⟩

/-- A PUT body that carries only a (stale) version field. -/
def patchFx4 : TemplatePatch := ⟨none, none, none, none, none, some 2⟩

/-- The template the C4 counterexample stores: version 3. -/
def tmplFx4v3 : Template := { tmplFx4 with version := 3 }

/-- C4 counterexample: updating the version-10 template with a body whose
version field is 2 succeeds and stores version 3 — the version neither
increased by 1 from the freshly read value (10) nor avoided decreasing, so
"increases by exactly 1 from the version the updater read; never decreases
or skips" fails on the code. -/
theorem updateTemplate_version_decrease_counterexample :
    updateTemplateCtrl dbFx4 aliceFx4 "t4" patchFx4 =
      .ok (tmplFx4v3, ⟨[], [tmplFx4v3], []⟩) ∧
    tmplFx4.version = 10 ∧
    tmplFx4v3.version = 3 ∧
    tmplFx4v3.version < tmplFx4.version := by
  refine ⟨by decide, rfl, rfl, by decide⟩

/-- A PUT body supplying no version field. -/
def patchFx4n : TemplatePatch := ⟨none, none, none, none, none, none⟩

/-- The stored result of a no-version update on the fixture: version 11. -/
def tmplFx4v11 : Template := { tmplFx4 with version := 11 }

/-- Witness for the amended C4 theorem: with no version in the body, the
concrete update stores read-version + 1 (10 becomes 11), and creation
always assigns version 1. -/
theorem template_version_rule_witness :
    tmplFx4v11.version = (patchFx4n.version.getD tmplFx4.version) + 1 ∧
    (patchFx4n.version = none → tmplFx4v11.version = tmplFx4.version + 1) ∧
    (∀ dbx nId nm ds bl uid adm st im,
       (createTemplateH dbx nId nm ds bl uid adm st im).1.version = 1) :=
  template_version_rule dbFx4 aliceFx4 "t4" patchFx4n tmplFx4 tmplFx4v11
    ⟨[], [tmplFx4v11], []⟩ (by decide) (by decide)

/-- Helper: when some required block has no matching answer, the block
match fails on the first such block with its missing-required message. -/
theorem matchTemplateBlocks_missing (B : List TemplateBlock)
    (A : List FormAnswer)
    (h : ∃ b ∈ B, b.required = true ∧ ∀ a ∈ A, a.questionId ≠ b.id) :
    ∃ b ∈ B, b.required = true ∧ (∀ a ∈ A, a.questionId ≠ b.id) ∧
      matchTemplateBlocks B A = .error ⟨400, missingRequiredMsg b⟩ := by
  obtain ⟨b0, hb0mem, hreq, hnoans⟩ := h
  have hp0 : (b0.required &&
      (A.find? (fun a => a.questionId = b0.id)).isNone) = true := by
    rw [Bool.and_eq_true]
    refine ⟨hreq, ?_⟩
    rw [Option.isNone_iff_eq_none, List.find?_eq_none]
    intro a ha
    simp [hnoans a ha]
  have hsome : (B.find? (fun b =>
      b.required && (A.find? (fun a => a.questionId = b.id)).isNone)).isSome := by
    rw [List.find?_isSome]
    exact ⟨b0, hb0mem, hp0⟩
  obtain ⟨b1, hb1⟩ := Option.isSome_iff_exists.mp hsome
  have hb1mem : b1 ∈ B := List.mem_of_find?_eq_some hb1
  have hb1p := List.find?_some hb1
  simp only [Bool.and_eq_true] at hb1p
  obtain ⟨hb1req, hb1none⟩ := hb1p
  rw [Option.isNone_iff_eq_none, List.find?_eq_none] at hb1none
  refine ⟨b1, hb1mem, hb1req, ?_, ?_⟩
  · intro a ha
    have := hb1none a ha
    simpa using this
  · unfold matchTemplateBlocks
    rw [hb1]

/-- Helper: when every required block is answered, the first loop of the
block match passes (its find? is none). -/
theorem matchTemplateBlocks_required_pass (B : List TemplateBlock)
    (A : List FormAnswer)
    (hcov : ∀ b ∈ B, b.required = true → ∃ a ∈ A, a.questionId = b.id) :
    B.find? (fun b =>
      b.required && (A.find? (fun a => a.questionId = b.id)).isNone) = none := by
  rw [List.find?_eq_none]
  intro b hb
  rw [Bool.not_eq_true, Bool.and_eq_false_iff]
  by_cases hreq : b.required = true
  · right
    obtain ⟨a, hamem, haid⟩ := hcov b hb hreq
    have hs : (A.find? (fun x => x.questionId = b.id)).isSome := by
      rw [List.find?_isSome]
      exact ⟨a, hamem, by simp [haid]⟩
    obtain ⟨x, hx⟩ := Option.isSome_iff_exists.mp hs
    rw [hx]
    rfl
  · left
    rw [Bool.not_eq_true] at hreq
    exact hreq

/-- Helper: with required coverage and an orphan answer present, the block
match fails with the unmatched-answer message. -/
theorem matchTemplateBlocks_orphan (B : List TemplateBlock)
    (A : List FormAnswer)
    (hcov : ∀ b ∈ B, b.required = true → ∃ a ∈ A, a.questionId = b.id)
    (horph : ∃ a ∈ A, ∀ b ∈ B, b.id ≠ a.questionId) :
    matchTemplateBlocks B A =
      .error ⟨400, "The answer does not match the template block"⟩ := by
  unfold matchTemplateBlocks
  rw [matchTemplateBlocks_required_pass B A hcov]
  obtain ⟨a0, ha0mem, ha0orph⟩ := horph
  have hq0 : ((B.find? (fun b => b.id = a0.questionId)).isNone : Bool) = true := by
    rw [Option.isNone_iff_eq_none, List.find?_eq_none]
    intro b hb
    simp [ha0orph b hb]
  have hsome : (A.find? (fun a =>
      (B.find? (fun b => b.id = a.questionId)).isNone)).isSome := by
    rw [List.find?_isSome]
    exact ⟨a0, ha0mem, hq0⟩
  obtain ⟨a1, ha1⟩ := Option.isSome_iff_exists.mp hsome
  rw [ha1]

/-- Helper: with required coverage and no orphan answers, the block match
passes. -/
theorem matchTemplateBlocks_ok (B : List TemplateBlock)
    (A : List FormAnswer)
    (hcov : ∀ b ∈ B, b.required = true → ∃ a ∈ A, a.questionId = b.id)
    (hnoorph : ∀ a ∈ A, ∃ b ∈ B, b.id = a.questionId) :
    matchTemplateBlocks B A = .ok () := by
  unfold matchTemplateBlocks
  rw [matchTemplateBlocks_required_pass B A hcov]
  have hnone : A.find? (fun a =>
      (B.find? (fun b => b.id = a.questionId)).isNone) = none := by
    rw [List.find?_eq_none]
    intro a ha
    rw [Bool.not_eq_true, Option.isNone_eq_false_iff, List.find?_isSome]
    obtain ⟨b, hbmem, hbid⟩ := hnoorph a ha
    exact ⟨b, hbmem, by simp [hbid]⟩
  rw [hnone]

/-- Helper: once the caller, answers and published template are in order,
`createForm` is decided by the block match, and success appends exactly the
submitted form. -/
theorem createForm_match_step (db : DB) (u : ReqUser) (newId : String)
    (body : FormBody) (t : Template)
    (hv : validateUser u = .ok u)
    (ha : validateAnswers body.answers = .ok ())
    (ht : findTemplateById db body.templateId = some t)
    (hp : t.status = "published") :
    createForm db u newId body =
      match matchTemplateBlocks t.blocks body.answers with
      | .error e => .error e
      | .ok _ =>
        .ok (⟨newId, body.templateId, u.id, body.answers⟩,
          { db with forms :=
              db.forms ++ [⟨newId, body.templateId, u.id, body.answers⟩] }) := by
  have hct : checkTemplate db body.templateId true = .ok t := by
    unfold checkTemplate getTemplateH
    simp only [ht]
    rw [if_neg (by simp [hp])]
  unfold createForm
  simp only [hv, ha, hct]
  rfl

/-- C6: with a valid caller, schema-valid answers and a published stored
template (the steps that run first in createForm), the coverage check
behaves as claimed, reading its two failure rules in the order the code
runs them: (1) if some required block is unanswered, creation fails with
the missing-required-answer error for (the first) such block; (2) if every
required block is answered but some answer references a questionId of no
block, creation fails with the unmatched-answer error; (3) if every
required block is answered and every answer references some block — in
particular non-required blocks may stay unanswered — creation succeeds and
persists exactly the submitted form. -/
theorem createForm_coverage (db : DB) (u : ReqUser) (newId : String)
    (body : FormBody) (t : Template)
    (hv : validateUser u = .ok u)
    (ha : validateAnswers body.answers = .ok ())
    (ht : findTemplateById db body.templateId = some t)
    (hp : t.status = "published") :
    ((∃ b ∈ t.blocks, b.required = true ∧
        ∀ a ∈ body.answers, a.questionId ≠ b.id) →
      ∃ b ∈ t.blocks, b.required = true ∧
        (∀ a ∈ body.answers, a.questionId ≠ b.id) ∧
        createForm db u newId body = .error ⟨400, missingRequiredMsg b⟩) ∧
    ((∀ b ∈ t.blocks, b.required = true →
        ∃ a ∈ body.answers, a.questionId = b.id) →
     (∃ a ∈ body.answers, ∀ b ∈ t.blocks, b.id ≠ a.questionId) →
      createForm db u newId body =
        .error ⟨400, "The answer does not match the template block"⟩) ∧
    ((∀ b ∈ t.blocks, b.required = true →
        ∃ a ∈ body.answers, a.questionId = b.id) →
     (∀ a ∈ body.answers, ∃ b ∈ t.blocks, b.id = a.questionId) →
      createForm db u newId body =
        .ok (⟨newId, body.templateId, u.id, body.answers⟩,
          { db with forms :=
              db.forms ++ [⟨newId, body.templateId, u.id, body.answers⟩] })) := by
  have hstep := createForm_match_step db u newId body t hv ha ht hp
  refine ⟨?_, ?_, ?_⟩
  · intro h
    obtain ⟨b1, hb1mem, hb1req, hb1no, hb1err⟩ :=
      matchTemplateBlocks_missing t.blocks body.answers h
    refine ⟨b1, hb1mem, hb1req, hb1no, ?_⟩
    rw [hstep, hb1err]
  · intro hcov horph
    rw [hstep, matchTemplateBlocks_orphan t.blocks body.answers hcov horph]
  · intro hcov hnoorph
    rw [hstep, matchTemplateBlocks_ok t.blocks body.answers hcov hnoorph]

/-- A published template for the C6 witness: one required short block and
one non-required paragraph block. -/
def tmplFx6 : Template :=
  { id := "t6", status := "published", name := "S", image := none,
    description := "d",
    blocks := [⟨"q1", "short", "name?", true, none, none, none⟩,
               ⟨"q2", "paragraph", "more?", false, none, none, none⟩],
    authorId := "alice", admins := [], version := 1 }

/-- Store fixture for C6. -/
def dbFx6 : DB := ⟨[], [tmplFx6], []⟩

/-- An answer set covering exactly the required block. -/
def answersFx6 : List FormAnswer := [⟨"q1", "name?", "short", .vstr "Bo"⟩]

/-- The submission body of the C6 witness. -/
def bodyFx6 : FormBody := ⟨"t6", answersFx6⟩

/-- The C6 witness submitter. -/
def bobFx6 : ReqUser := ⟨"bob", "regular", "active"⟩

/-- Witness for C6: answering only the required block of the concrete
two-block template succeeds and persists the form (third conjunct of the
theorem, with all hypotheses discharged concretely). -/
theorem createForm_coverage_witness :
    createForm dbFx6 bobFx6 "f6" bodyFx6 =
      .ok (⟨"f6", bodyFx6.templateId, bobFx6.id, bodyFx6.answers⟩,
        { dbFx6 with forms :=
            dbFx6.forms ++ [⟨"f6", bodyFx6.templateId, bobFx6.id, bodyFx6.answers⟩] }) :=
  (createForm_coverage dbFx6 bobFx6 "f6" bodyFx6 tmplFx6
    (by decide) (by decide) (by decide) rfl).2.2
    (by decide) (by decide)
